import Mathlib

/-!
Verification of the adaptive visualization configuration engine in
`src/frontend/src/components/ChartRenderer.jsx`.  JavaScript numbers are
idealised as exact rationals (`JQ`, a kernel-computable rational type kept
in lowest terms), with an explicit `none` standing for NaN; the one use of
`Math.sqrt` (bubble sizing) is modelled over the reals.  Purely visual
styling (colors, grid geometry, toolbox, label styles) that no verified
claim mentions is not modelled.
-/

namespace Panel

/-- Exact rationals in lowest terms with positive denominator, used to
idealise JavaScript (float) numbers.  All operations normalise through
`Nat.gcd`, so structural equality is value equality on their results. -/
structure JQ where
  num : Int
  den : Nat
  deriving DecidableEq, Repr

/-- Normalising constructor: divide out the gcd (zero denominator, which
never arises in the modelled code, maps to 0). -/
def JQ.norm (n : Int) (d : Nat) : JQ :=
  if d = 0 then ⟨0, 1⟩
  else
    let g := n.natAbs.gcd d
    ⟨n / (g : Int), d / g⟩

instance (n : Nat) : OfNat JQ n := ⟨⟨Int.ofNat n, 1⟩⟩

instance : Neg JQ := ⟨fun a => ⟨-a.num, a.den⟩⟩

instance : Add JQ := ⟨fun a b => JQ.norm (a.num * b.den + b.num * a.den) (a.den * b.den)⟩

instance : Sub JQ := ⟨fun a b => JQ.norm (a.num * b.den - b.num * a.den) (a.den * b.den)⟩

instance : Mul JQ := ⟨fun a b => JQ.norm (a.num * b.num) (a.den * b.den)⟩

/-- Reciprocal (of a value in lowest terms); `inv 0 = 0`, never reached by
the modelled code. -/
def JQ.inv (a : JQ) : JQ :=
  if 0 < a.num then ⟨(a.den : Int), a.num.toNat⟩
  else if a.num < 0 then ⟨-(a.den : Int), (-a.num).toNat⟩
  else ⟨0, 1⟩

instance : Div JQ := ⟨fun a b => a * b.inv⟩

instance : LE JQ := ⟨fun a b => a.num * (b.den : Int) ≤ b.num * (a.den : Int)⟩

instance : LT JQ := ⟨fun a b => a.num * (b.den : Int) < b.num * (a.den : Int)⟩

instance (a b : JQ) : Decidable (a ≤ b) :=
  inferInstanceAs (Decidable (a.num * (b.den : Int) ≤ b.num * (a.den : Int)))

instance (a b : JQ) : Decidable (a < b) :=
  inferInstanceAs (Decidable (a.num * (b.den : Int) < b.num * (a.den : Int)))

/-- Zero test by value (`num == 0`), not by structural equality. -/
def JQ.isZero (a : JQ) : Bool := a.num == 0

/-- `Math.abs`. -/
def JQ.abs (a : JQ) : JQ := if a.num < 0 then -a else a

/-- `Math.max` on two non-NaN numbers. -/
def JQ.max (a b : JQ) : JQ := if a ≤ b then b else a

/-- `Math.min` on two non-NaN numbers. -/
def JQ.min (a b : JQ) : JQ := if a ≤ b then a else b

/-- Floor to an integer (used by `toFixed` rounding). -/
def JQ.floor (a : JQ) : Int := a.num.fdiv (a.den : Int)

/-- Scalar values occurring in a record, modelling the JavaScript values
the component manipulates.  `num none` stands for NaN; `undefined` models
`undefined` (a missing property). -/
inductive JSVal where
  | num (v : Option JQ)
  | str (s : String)
  | null
  | undefined
  deriving DecidableEq, Repr

/-- JavaScript truthiness for the modelled values. -/
def truthy : JSVal → Bool
  | .num none => false
  | .num (some q) => !q.isZero
  | .str s => s != ""
  | .null => false
  | .undefined => false

/-- JavaScript `a || b` on modelled values. -/
def jsOr (a b : JSVal) : JSVal := if truthy a then a else b

/-- JavaScript `a || b` where both operands are strings (config fields and
keys; the empty string is the only falsy string). -/
def strOr (a b : String) : String := if a = "" then b else a

/-- JavaScript `x || d` for an already coerced number (`none` = NaN). -/
def numOr (x : Option JQ) (d : JQ) : Option JQ :=
  match x with
  | none => some d
  | some q => if q.isZero then some d else some q

/-- Decimal digits to a natural number. -/
def natOfDigits (ds : List Char) : ℕ :=
  ds.foldl (fun a c => a * 10 + (c.toNat - 48)) 0

/-- Exponent suffix of a float literal: consumes the sign and digits after
an `e`/`E` only when digits are present, otherwise consumes nothing
(mirroring how `parseFloat` backtracks on `"12e"`). -/
def parseExponentTail (orig rest : List Char) : ℤ × List Char :=
  let sgn : ℤ × List Char :=
    match rest with
    | '-' :: r2 => (-1, r2)
    | '+' :: r2 => (1, r2)
    | _ => (1, rest)
  let ds := sgn.2.takeWhile Char.isDigit
  if ds.isEmpty then (0, orig)
  else (sgn.1 * (natOfDigits ds : ℤ), sgn.2.dropWhile Char.isDigit)

/-- Optional exponent part; returns the exponent and unconsumed input. -/
def parseExponent (cs : List Char) : ℤ × List Char :=
  match cs with
  | 'e' :: rest => parseExponentTail cs rest
  | 'E' :: rest => parseExponentTail cs rest
  | _ => (0, cs)

/-- Longest numeric prefix of a character list, as JavaScript `parseFloat`
reads it: optional sign, integer digits, optional fraction, optional
exponent.  Returns the parsed value and the unconsumed remainder, or
`none` (NaN) when no mantissa digit is present.  (`Infinity` literals and
hexadecimal forms are never fed to it by this component.) -/
def parseFloatCore (cs : List Char) : Option (JQ × List Char) :=
  let sgn : JQ × List Char :=
    match cs with
    | '-' :: rest => (-1, rest)
    | '+' :: rest => (1, rest)
    | _ => (1, cs)
  let intDs := sgn.2.takeWhile Char.isDigit
  let afterInt := sgn.2.dropWhile Char.isDigit
  let fracDs :=
    match afterInt with
    | '.' :: rest => rest.takeWhile Char.isDigit
    | _ => []
  let afterFrac :=
    match afterInt with
    | '.' :: rest => rest.dropWhile Char.isDigit
    | _ => afterInt
  if intDs.isEmpty && fracDs.isEmpty then none
  else
    let ex := parseExponent afterFrac
    let mant : JQ :=
      (⟨Int.ofNat (natOfDigits intDs), 1⟩ : JQ) +
        JQ.norm (Int.ofNat (natOfDigits fracDs)) (10 ^ fracDs.length)
    let scaled : JQ :=
      if 0 ≤ ex.1 then mant * ⟨Int.ofNat (10 ^ ex.1.toNat), 1⟩
      else JQ.norm mant.num (mant.den * 10 ^ (-ex.1).toNat)
    some (sgn.1 * scaled, ex.2)

/-- JavaScript `String.prototype.trim`. -/
def jsTrim (s : String) : String :=
  String.mk (((s.toList.dropWhile Char.isWhitespace).reverse.dropWhile Char.isWhitespace).reverse)

/-- JavaScript `parseFloat`: skip leading whitespace, parse the longest
numeric prefix; `none` = NaN. -/
def parseFloat (s : String) : Option JQ :=
  (parseFloatCore (s.toList.dropWhile Char.isWhitespace)).map Prod.fst

/-- JavaScript `Number(...)` applied to a string: trimmed-empty is 0,
otherwise the whole trimmed string must parse as a float. -/
def jsNumberOfString (s : String) : Option JQ :=
  let t := (jsTrim s).toList
  if t.isEmpty then some 0
  else
    match parseFloatCore t with
    | some (q, rest) => if rest.isEmpty then some q else none
    | none => none

/-- JavaScript `Number(...)` coercion of a modelled value. -/
def jsToNumber : JSVal → Option JQ
  | .num v => v
  | .str s => jsNumberOfString s
  | .null => some 0
  | .undefined => none

/-- Substring containment over character lists. -/
def charsContain (text pat : List Char) : Bool :=
  match text with
  | [] => pat.isEmpty
  | _ :: rest => pat.isPrefixOf text || charsContain rest pat

/-- Substring containment (JavaScript `String.prototype.includes`). -/
def strContains (s sub : String) : Bool := charsContain s.toList sub.toList

/-- Suffix test (JavaScript `String.prototype.endsWith`). -/
def strEndsWith (s suf : String) : Bool := suf.toList.isSuffixOf s.toList

/-- JavaScript `toLowerCase` (ASCII case mapping; CJK characters are
unaffected). -/
def jsToLower (s : String) : String := String.mk (s.toList.map Char.toLower)

/-- Source `isPercentageKey`: a column name denotes a percentage-like
metric when (lower-cased) it contains any of the fixed tokens. -/
def isPercentageKey (key : String) : Bool :=
  if key = "" then false
  else
    let k := jsToLower key
    strContains k "率" || strContains k "比" || strContains k "份额" ||
      strContains k "percent" || strContains k "rate" || strContains k "ratio"

/-- `Number.prototype.toFixed(1)` on a nonnegative rational: round to the
nearest tenth, halves away from zero, print one decimal. -/
def toFixed1Nonneg (q : JQ) : String :=
  let n : ℤ := (q * 10 + JQ.norm 1 2).floor
  toString (n.toNat / 10) ++ "." ++ toString (n.toNat % 10)

/-- `Number.prototype.toFixed(1)`: negative inputs print a sign and then
the formatted magnitude, per the ECMAScript algorithm. -/
def toFixed1 (q : JQ) : String :=
  if q < 0 then "-" ++ toFixed1Nonneg (-q) else toFixed1Nonneg q

/-- Comma-grouping helper over the reversed digit list: a comma goes after
every third digit that is followed by more digits. -/
def commaGroupRev : List Char → ℕ → List Char
  | [], _ => []
  | c :: rest, n =>
    if 0 < n ∧ n % 3 = 0 then ',' :: c :: commaGroupRev rest (n + 1)
    else c :: commaGroupRev rest (n + 1)

/-- `Number.prototype.toLocaleString()` on an integer value: sign plus
comma-grouped digits (the only call site formats integers). -/
def toLocaleStringInt (n : ℤ) : String :=
  (if n < 0 then "-" else "") ++
    String.mk ((commaGroupRev (toString n.natAbs).toList.reverse 0).reverse)

/-- Source `formatValue`, branch taken once the input coerces to a number:
percentage columns get the 1.05 fraction heuristic and a `%` suffix, large
magnitudes get the 亿/万 glyphs, non-integers one decimal, integers
locale grouping. -/
def formatNum (num : JQ) (key : String) : String :=
  if isPercentageKey key then
    if num.abs ≤ ⟨21, 20⟩ ∧ ¬num.isZero then toFixed1 (num * 100) ++ "%"
    else toFixed1 num ++ "%"
  else if (100000000 : JQ) ≤ num.abs then toFixed1 (num / 100000000) ++ "亿"
  else if (10000 : JQ) ≤ num.abs then toFixed1 (num / 10000) ++ "万"
  else if num.den ≠ 1 then toFixed1 num
  else toLocaleStringInt num.num

/-- Source `formatValue`: null/undefined and NaN-coercing inputs are
returned unchanged, otherwise the coerced number is formatted. -/
def formatValue (value : JSVal) (key : String) : JSVal :=
  match value with
  | .null => .null
  | .undefined => .undefined
  | v =>
    match jsToNumber v with
    | none => v
    | some num => .str (formatNum num key)

/-- Source `formatLargeNumber`: `formatValue` with the default empty key. -/
def formatLargeNumber (value : JSVal) : JSVal := formatValue value ""

/-- Static alias table mapping short region names to canonical boundary
names (source: `PROVINCE_ALIAS`). -/
def PROVINCE_ALIAS : List (String × String) :=
  [("北京", "北京市"), ("天津", "天津市"), ("河北", "河北省"), ("山西", "山西省"),
   ("内蒙古", "内蒙古自治区"), ("辽宁", "辽宁省"), ("吉林", "吉林省"),
   ("黑龙江", "黑龙江省"), ("上海", "上海市"), ("江苏", "江苏省"), ("浙江", "浙江省"),
   ("安徽", "安徽省"), ("福建", "福建省"), ("江西", "江西省"), ("山东", "山东省"),
   ("河南", "河南省"), ("湖北", "湖北省"), ("湖南", "湖南省"), ("广东", "广东省"),
   ("广西", "广西壮族自治区"), ("海南", "海南省"), ("重庆", "重庆市"),
   ("四川", "四川省"), ("贵州", "贵州省"), ("云南", "云南省"), ("西藏", "西藏自治区"),
   ("陕西", "陕西省"), ("甘肃", "甘肃省"), ("青海", "青海省"),
   ("宁夏", "宁夏回族自治区"), ("新疆", "新疆维吾尔自治区"), ("台湾", "台湾省"),
   ("香港", "香港特别行政区"), ("澳门", "澳门特别行政区")]

/-- JavaScript `String(...)` coercion for the value shapes the component
feeds it (region names and group keys are strings on every exercised
path; the numeric rendering is a best-effort stand-in for float
stringification, which no claim touches). -/
def jsToString : JSVal → String
  | .str s => s
  | .num none => "NaN"
  | .num (some q) => if q.den = 1 then toString q.num else toFixed1 q
  | .null => "null"
  | .undefined => "undefined"

/-- Source `normalizeProvinceName`: falsy inputs are returned as-is;
otherwise trim, try the alias table, then return already-canonical or
unmatched names unchanged (both yield the trimmed input). -/
def normalizeProvinceName (name : JSVal) : JSVal :=
  if truthy name = false then name
  else
    let cleanName := jsTrim (jsToString name)
    match PROVINCE_ALIAS.lookup cleanName with
    | some full => .str full
    | none =>
      if (PROVINCE_ALIAS.map Prod.snd).contains cleanName then .str cleanName
      else .str cleanName

/-- Source `parseVal` (heatmap branch): numbers pass through, `%`-suffixed
strings go through `parseFloat`, other strings fall back to
`parseFloat(t) || 0`, and non-string non-number values become 0. -/
def parseVal (v : JSVal) : Option JQ :=
  match v with
  | .num q => q
  | .str s =>
    let t := jsTrim s
    if strEndsWith t "%" then parseFloat t
    else numOr (parseFloat t) 0
  | .null => some 0
  | .undefined => some 0

/-- Source `parseMapVal` (map branch): textually identical to `parseVal`. -/
def parseMapVal (v : JSVal) : Option JQ :=
  match v with
  | .num q => q
  | .str s =>
    let t := jsTrim s
    if strEndsWith t "%" then parseFloat t
    else numOr (parseFloat t) 0
  | .null => some 0
  | .undefined => some 0

/-- A record: column names to scalar values, in declaration order
(JavaScript object key order). -/
abbrev Record := List (String × JSVal)

/-- Property access `d[k]`: `undefined` when the key is absent. -/
def getField (d : Record) (k : String) : JSVal :=
  match d.lookup k with
  | some v => v
  | none => .undefined

/-- Metric-candidate test applied to the first record's value for a column
(source: the filter body inside `dataKeys`): numbers (including NaN, whose
`typeof` is `number`), `%`-suffixed strings with a parseable prefix, and
fully numeric strings qualify; empty strings never do. -/
def isMetricVal (val : JSVal) : Bool :=
  match val with
  | .num _ => true
  | .str s =>
    let trimmed := jsTrim s
    if trimmed = "" then false
    else if strEndsWith trimmed "%" then (parseFloat (String.mk trimmed.toList.dropLast)).isSome
    else (jsNumberOfString trimmed).isSome
  | .null => false
  | .undefined => false

/-- Source `dataKeys` computed from the first record (the component
memoises this over `data[0]`); the literal `name` column is always
excluded, and `['value']` is the fallback when nothing qualifies. -/
def dataKeysOf (r0 : Record) : List String :=
  let keys := (r0.map Prod.fst).filter (fun k => k != "name" && isMetricVal (getField r0 k))
  if keys.isEmpty then ["value"] else keys

/-- Source `dataKeys`: `['value']` for empty data. -/
def dataKeys (data : List Record) : List String :=
  match data with
  | [] => ["value"]
  | r0 :: _ => dataKeysOf r0

/-- Source `nameKey` resolution inside `getOption`: the hinted dimension
when truthy, else the literal `name` column when its first-record value is
truthy, else the first column not among the inferred metric keys — but
only when that found column name is itself truthy (`if (dimensionKey)`):
a column literally named `""` is falsy and falls through — else `name`.
The empty string models an absent/falsy hint. -/
def nameKeyOf (dimension : String) (r0 : Record) : String :=
  if dimension ≠ "" then dimension
  else if truthy (getField r0 "name") then "name"
  else
    match (r0.map Prod.fst).find? (fun k => !(dataKeysOf r0).contains k) with
    | some k => if k ≠ "" then k else "name"
    | none => "name"

/-- Hint configuration (`geminiConfig`); absent string options are
modelled as `""`, matching their falsy use in the source. -/
structure GeminiConfig where
  dimension : String := ""
  xDataKey : String := ""
  yDataKey : String := ""
  sizeDataKey : String := ""
  seriesKey : String := ""
  metricKey : String := ""
  unit : String := ""
  xAxisLabel : String := ""
  yAxisLabel : String := ""
  showLegend : Bool := true
  showGrid : Bool := true
  deriving DecidableEq, Repr

/-- Tooltip formatter closures, represented by the data they capture. -/
inductive TooltipFormatter where
  | axisDefault (unit : String)
  | bubbleItem (xLabel yLabel sizeLabel : String)
  | heatmapCell (yCats : List JSVal) (valKey : String)
  | mapRegion (valKey : String)
  deriving DecidableEq, Repr

structure TooltipSpec where
  trigger : Option String := none
  formatter : Option TooltipFormatter := none
  deriving DecidableEq, Repr

structure LegendSpec where
  legendData : Option (List String) := none
  deriving DecidableEq, Repr

structure AxisSpec where
  axisType : String
  axisName : String := ""
  position : Option String := none
  axisData : Option (List JSVal) := none
  rotate : JQ := 0
  formatterKey : Option String := none
  deriving DecidableEq, Repr

/-- Either a single axis object or a two-element axis array, matching the
source's `useDualAxis ? [primary, secondary] : primary`. -/
inductive YAxisSpec where
  | single (a : AxisSpec)
  | dual (primary secondary : AxisSpec)
  deriving DecidableEq, Repr

/-- The per-kind shapes of `series[i].data`. -/
inductive SeriesData where
  | scalars (vals : List JSVal)
  | xy (pts : List (JSVal × JSVal))
  | namedVals (pts : List (JSVal × JSVal))
  | triples (pts : List (ℤ × ℤ × Option JQ))
  | quads (pts : List (JSVal × JSVal × JSVal × JSVal))
  | radarRows (rows : List (JSVal × List JSVal))
  deriving DecidableEq, Repr

/-- One series; the bubble `symbolSize` closure is represented by the
`maxVal` it captures (see `getSize`). -/
structure SeriesSpec where
  seriesName : Option String := none
  seriesType : String
  yAxisIndex : ℕ := 0
  sdata : SeriesData
  symbolSizeMaxVal : Option JQ := none
  deriving DecidableEq, Repr

structure VisualMapSpec where
  vmin : JQ
  vmax : JQ
  range : Option (JQ × JQ) := none
  deriving DecidableEq, Repr

structure RadarIndicator where
  indName : String
  indMax : Option JQ
  deriving DecidableEq, Repr

/-- The chart specification assembled by `getOption`; fields a branch does
not set stay `none`, mirroring absent object properties. -/
structure ChartOption where
  tooltip : Option TooltipSpec := none
  legend : Option LegendSpec := none
  xAxis : Option AxisSpec := none
  yAxis : Option YAxisSpec := none
  series : Option (List SeriesSpec) := none
  visualMap : Option VisualMapSpec := none
  radarIndicators : Option (List RadarIndicator) := none
  deriving DecidableEq, Repr

/-- The chart kinds dispatched by the source `switch`; `other` covers every
unrecognized string (the source `default` branch). -/
inductive ChartKind where
  | line | area | bar | mix | pie | scatter | bubble | radar | funnel | heatmap | map | other
  deriving DecidableEq, Repr

/-- Common preamble (`baseOption`): tooltip shell with the default axis
formatter and legend visibility from the hints. -/
def baseOption (kind : ChartKind) (cfg : GeminiConfig) : ChartOption :=
  { tooltip := some
      { trigger := some (if kind = .pie ∨ kind = .radar ∨ kind = .funnel then "item" else "axis"),
        formatter := some (.axisDefault cfg.unit) },
    legend := if cfg.showLegend then some {} else none }

/-- `Math.max` over a list of coerced values: NaN (`none`) propagates; the
empty case (`-Infinity` in JavaScript) never arises on the non-empty data
the component guards for and is mapped to NaN. -/
def mathMax : List (Option JQ) → Option JQ
  | [] => none
  | [x] => x
  | x :: rest =>
    match x, mathMax rest with
    | some a, some b => some (a.max b)
    | _, _ => none

/-- `Math.min` over a list of coerced values, NaN propagating. -/
def mathMin : List (Option JQ) → Option JQ
  | [] => none
  | [x] => x
  | x :: rest =>
    match x, mathMin rest with
    | some a, some b => some (a.min b)
    | _, _ => none

/-- The category labels `data.map(d => d[nameKey] || d.name || '')`. -/
def namesOf (nk : String) (data : List Record) : List JSVal :=
  data.map (fun d => jsOr (jsOr (getField d nk) (getField d "name")) (.str ""))

/-- Dual-axis activation: both a percentage-classified and a plain metric
column are present (source: `useDualAxis`). -/
def useDualOf (r0 : Record) : Bool :=
  !((dataKeysOf r0).filter isPercentageKey).isEmpty &&
    !((dataKeysOf r0).filter (fun k => !isPercentageKey k)).isEmpty

/-- Source bar/line/area/mix branch of `getOption`. -/
def barLikeOption (kind : ChartKind) (data : List Record) (r0 : Record)
    (title : String) (cfg : GeminiConfig) : ChartOption :=
  let dks := dataKeysOf r0
  let percentKeys := dks.filter isPercentageKey
  let valueKeys := dks.filter (fun k => !isPercentageKey k)
  let nk := nameKeyOf cfg.dimension r0
  let names := namesOf nk data
  let primaryAxis : AxisSpec :=
    { axisType := "value", axisName := cfg.yAxisLabel,
      formatterKey := some (if !valueKeys.isEmpty then valueKeys.headD "" else percentKeys.headD "") }
  let secondaryAxis : AxisSpec :=
    { axisType := "value", position := some "right",
      formatterKey := some (strOr (percentKeys.headD "") "rate") }
  { baseOption kind cfg with
    xAxis := some
      { axisType := "category", axisData := some names, axisName := cfg.xAxisLabel,
        rotate := if names.length > 8 then 30 else 0 },
    yAxis := some (if useDualOf r0 then .dual primaryAxis secondaryAxis else .single primaryAxis),
    series := some (dks.map (fun key =>
      let isPercent := isPercentageKey key
      { seriesName := some (if key = "value" then strOr title "数值" else key),
        seriesType :=
          if isPercent then "line"
          else if kind = .mix then "bar"
          else if kind = .line ∨ kind = .area then "line"
          else "bar",
        yAxisIndex := if useDualOf r0 && isPercent then 1 else 0,
        sdata := .scalars (data.map (fun d => getField d key)) })) }

/-- Source pie branch. -/
def pieOption (data : List Record) (r0 : Record) (cfg : GeminiConfig) : ChartOption :=
  let dks := dataKeysOf r0
  let nk := nameKeyOf cfg.dimension r0
  { baseOption .pie cfg with
    series := some [
      { seriesType := "pie",
        sdata := .namedVals (data.map (fun d =>
          (jsOr (getField d nk) (getField d "name"),
           jsOr (getField d (dks.headD "")) (getField d "value")))) }] }

/-- Source scatter branch: the first two metric columns become X/Y. -/
def scatterOption (data : List Record) (r0 : Record) (title : String)
    (cfg : GeminiConfig) : ChartOption :=
  let dks := dataKeysOf r0
  { baseOption .scatter cfg with
    xAxis := some { axisType := "value", axisName := strOr cfg.xAxisLabel (strOr (dks.headD "") "X") },
    yAxis := some (.single
      { axisType := "value", axisName := strOr cfg.yAxisLabel (strOr (dks.getD 1 "") "Y") }),
    series := some [
      { seriesName := some (strOr title "数据"),
        seriesType := "scatter",
        sdata := .xy (data.map (fun d =>
          (jsOr (getField d (dks.headD "")) (getField d "value"),
           jsOr (jsOr (getField d (dks.getD 1 "")) (getField d (dks.headD "")))
             (getField d "value")))) }] }

/-- Insertion-ordered grouping, modelling accumulation into the keys of a
JavaScript object. -/
def groupInsert (gs : List (String × List Record)) (g : String) (d : Record) :
    List (String × List Record) :=
  match gs with
  | [] => [(g, [d])]
  | (k, ds) :: rest =>
    if k = g then (k, ds ++ [d]) :: rest
    else (k, ds) :: groupInsert rest g d

/-- The bubble grouping key, as consumed by the `if (groupKey)` guard: the
hinted `seriesKey`, else the first column other than `name`/the dimension
that is not a metric column — a found column literally named `""` is falsy
in the source and yields no grouping, like an absent one. -/
def bubbleGroupKey (cfg : GeminiConfig) (r0 : Record) : Option String :=
  if cfg.seriesKey ≠ "" then some cfg.seriesKey
  else
    match (r0.map Prod.fst).find? (fun k =>
      k != "name" && k != nameKeyOf cfg.dimension r0 && !(dataKeysOf r0).contains k) with
    | some k => if k = "" then none else some k
    | none => none

/-- The bubble groups: records bucketed by `d[groupKey] || '未分类'` in
insertion order, or a single `数据` group when no group key exists. -/
def bubbleGroups (cfg : GeminiConfig) (data : List Record) (r0 : Record) :
    List (String × List Record) :=
  match bubbleGroupKey cfg r0 with
  | some gk =>
    data.foldl (fun gs d => groupInsert gs (jsToString (jsOr (getField d gk) (.str "未分类"))) d) []
  | none => [("数据", data)]

/-- The captured `maxVal` of the bubble `symbolSize` closure:
`Math.max(...data.map(d => Math.abs(d[sizeKey] || 0))) || 1`. -/
def bubbleMaxVal (data : List Record) (sizeKey : String) : JQ :=
  (numOr (mathMax (data.map (fun d =>
    (jsToNumber (jsOr (getField d sizeKey) (.num (some 0)))).map JQ.abs))) 1).getD 1

/-- Real-valued interpretation of a `JQ` (for the one `Math.sqrt` site). -/
noncomputable def JQ.toReal (q : JQ) : ℝ := (q.num : ℝ) / (q.den : ℝ)

/-- Source `getSize` closure of the bubble branch: square-root scale of the
absolute value against the captured maximum, scaled by 60 and clamped into
`[10, 80]`; NaN-coercing inputs yield NaN (`none`). -/
noncomputable def getSize (maxVal : JQ) (val : JSVal) : Option ℝ :=
  match jsToNumber val with
  | none => none
  | some q =>
    some (Max.max 10 (Min.min 80
      (Real.sqrt |q.toReal| / Real.sqrt maxVal.toReal * 60)))

/-- Source bubble branch; `symbolSize` is recorded through the `maxVal` it
captures. -/
def bubbleOption (data : List Record) (r0 : Record) (cfg : GeminiConfig) : ChartOption :=
  let dks := dataKeysOf r0
  let nk := nameKeyOf cfg.dimension r0
  let xKey := strOr cfg.xDataKey (strOr (dks.headD "") "value")
  let yKey := strOr cfg.yDataKey (strOr (dks.getD 1 "") (strOr (dks.headD "") "value"))
  let sizeKey := strOr cfg.sizeDataKey (strOr (dks.getD 2 "") (strOr (dks.headD "") "value"))
  let groups := bubbleGroups cfg data r0
  { baseOption .bubble cfg with
    legend := some { legendData := some (groups.map Prod.fst) },
    tooltip := some
      { trigger := some "item",
        formatter := some (.bubbleItem (strOr cfg.xAxisLabel xKey) (strOr cfg.yAxisLabel yKey)
          sizeKey) },
    xAxis := some { axisType := "value", axisName := strOr cfg.xAxisLabel xKey },
    yAxis := some (.single { axisType := "value", axisName := strOr cfg.yAxisLabel yKey }),
    series := some (groups.map (fun g =>
      { seriesName := some g.1,
        seriesType := "scatter",
        symbolSizeMaxVal := some (bubbleMaxVal data sizeKey),
        sdata := .quads (g.2.map (fun d =>
          (getField d xKey, getField d yKey, getField d sizeKey,
           jsOr (jsOr (getField d nk) (getField d "name")) (.str g.1)))) })) }

/-- Source radar branch: one indicator per metric, each capped at 1.2× its
observed maximum. -/
def radarOption (data : List Record) (r0 : Record) (cfg : GeminiConfig) : ChartOption :=
  let dks := dataKeysOf r0
  { baseOption .radar cfg with
    radarIndicators := some (dks.map (fun k =>
      { indName := k,
        indMax := (mathMax (data.map (fun d =>
          jsToNumber (jsOr (getField d k) (.num (some 0)))))).map (fun m => m * ⟨6, 5⟩) })),
    series := some [
      { seriesType := "radar",
        sdata := .radarRows (data.map (fun d =>
          (getField d "name", dks.map (fun k => jsOr (getField d k) (.num (some 0)))))) }] }

/-- Source funnel branch (sorting and palette are rendering concerns the
claims do not touch). -/
def funnelOption (data : List Record) (r0 : Record) (cfg : GeminiConfig) : ChartOption :=
  let dks := dataKeysOf r0
  { baseOption .funnel cfg with
    series := some [
      { seriesType := "funnel",
        sdata := .namedVals (data.map (fun d =>
          (getField d "name", jsOr (getField d (dks.headD "")) (getField d "value")))) }] }

/-- First-occurrence deduplication (`Array.from(new Set(xs))`). -/
def dedupAcc : List JSVal → List JSVal → List JSVal
  | [], _ => []
  | x :: xs, seen => if seen.contains x then dedupAcc xs seen else x :: dedupAcc xs (x :: seen)

/-- JavaScript `Array.prototype.indexOf`: the first index, or `-1`. -/
def jsIndexOf (xs : List JSVal) (v : JSVal) : ℤ :=
  match xs.findIdx? (fun x => x == v) with
  | some i => (i : ℤ)
  | none => -1

/-- The metric key selected by the heatmap and map branches: the state
override, else the hinted `metricKey`, else the first metric column. -/
def mapValKeyOf (cfg : GeminiConfig) (ovr : String) (r0 : Record) : String :=
  strOr ovr (strOr cfg.metricKey (strOr ((dataKeysOf r0).headD "") "value"))

/-- Source heatmap branch. -/
def heatmapOption (data : List Record) (r0 : Record) (title : String)
    (cfg : GeminiConfig) (ovr : String) : ChartOption :=
  let dks := dataKeysOf r0
  let stringKeysHM := (r0.map Prod.fst).filter (fun k => k != "name" && !dks.contains k)
  let hxKey := strOr cfg.xDataKey (strOr (stringKeysHM.headD "") "x")
  let hyKey := strOr cfg.yDataKey (strOr (stringKeysHM.getD 1 "") (strOr (stringKeysHM.headD "") "y"))
  let hValKey := mapValKeyOf cfg ovr r0
  let xCats := (dedupAcc (data.map (fun d => getField d hxKey)) []).filter truthy
  let yCats := (dedupAcc (data.map (fun d => getField d hyKey)) []).filter truthy
  let heatmapData :=
    (data.map (fun d =>
      (jsIndexOf xCats (getField d hxKey), jsIndexOf yCats (getField d hyKey),
       parseVal (getField d hValKey)))).filter
      (fun t => t.1 != -1 && t.2.1 != -1)
  let maxHVal := (numOr (mathMax (data.map (fun d => parseVal (getField d hValKey)))) 100).getD 100
  { baseOption .heatmap cfg with
    tooltip := some { formatter := some (.heatmapCell yCats hValKey) },
    xAxis := some { axisType := "category", axisData := some xCats },
    yAxis := some (.single { axisType := "category", axisData := some yCats }),
    visualMap := some { vmin := 0, vmax := maxHVal },
    series := some [
      { seriesName := some (strOr title "热力图"),
        seriesType := "heatmap",
        sdata := .triples heatmapData }] }

/-- The coerced metric values the map branch computes its legend from. -/
def mapValsOf (data : List Record) (r0 : Record) (cfg : GeminiConfig) (ovr : String) :
    List (Option JQ) :=
  data.map (fun d => parseMapVal (getField d (mapValKeyOf cfg ovr r0)))

/-- Source map (choropleth) branch. -/
def mapOption (data : List Record) (r0 : Record) (title : String)
    (cfg : GeminiConfig) (ovr : String) : ChartOption :=
  let mapValKey := mapValKeyOf cfg ovr r0
  let mapNameKey := nameKeyOf cfg.dimension r0
  let vals := mapValsOf data r0 cfg ovr
  let maxMapVal := (numOr (mathMax vals) 100).getD 100
  let minMapVal := (numOr (mathMin vals) 0).getD 0
  { baseOption .map cfg with
    tooltip := some { trigger := some "item", formatter := some (.mapRegion mapValKey) },
    visualMap := some
      { vmin := minMapVal, vmax := maxMapVal, range := some (minMapVal, maxMapVal) },
    series := some [
      { seriesName := some (strOr title "地图"),
        seriesType := "map",
        sdata := .namedVals (data.map (fun d =>
          (normalizeProvinceName (jsOr (getField d mapNameKey) (getField d "name")),
           .num (parseMapVal (jsOr (getField d mapValKey) (getField d "value")))))) }] }

/-- Source `default` branch: plain bars. -/
def defaultOption (data : List Record) (r0 : Record) (title : String)
    (cfg : GeminiConfig) : ChartOption :=
  let dks := dataKeysOf r0
  let nk := nameKeyOf cfg.dimension r0
  let names := namesOf nk data
  { baseOption .other cfg with
    xAxis := some
      { axisType := "category", axisData := some names,
        rotate := if names.length > 8 then 30 else 0 },
    yAxis := some (.single { axisType := "value" }),
    series := some (dks.map (fun key =>
      { seriesName := some (if key = "value" then strOr title "数值" else key),
        seriesType := "bar",
        sdata := .scalars (data.map (fun d => getField d key)) })) }

/-- Source `getOption`: dispatch on the chart kind.  The component only
calls `getOption` behind a non-empty-data guard; the empty case yields the
empty sentinel option and is not reached by the claims. -/
def getOption (kind : ChartKind) (data : List Record) (title : String)
    (cfg : GeminiConfig) (ovr : String) : ChartOption :=
  match data with
  | [] => {}
  | r0 :: _ =>
    match kind with
    | .line => barLikeOption .line data r0 title cfg
    | .area => barLikeOption .area data r0 title cfg
    | .bar => barLikeOption .bar data r0 title cfg
    | .mix => barLikeOption .mix data r0 title cfg
    | .pie => pieOption data r0 cfg
    | .scatter => scatterOption data r0 title cfg
    | .bubble => bubbleOption data r0 cfg
    | .radar => radarOption data r0 cfg
    | .funnel => funnelOption data r0 cfg
    | .heatmap => heatmapOption data r0 title cfg ovr
    | .map => mapOption data r0 title cfg ovr
    | .other => defaultOption data r0 title cfg

/-! ## Theorems for the claims -/

/-- C3: the value formatter's rules for percentage-classified and plain
columns, with the four concrete test vectors: `format(0.125, 转化率) =
"12.5%"`, `format(12.5, 转化率) = "12.5%"`, `format(150000000, 销售额) =
"1.5亿"`, `format(25000, 销售额) = "2.5万"`. -/
theorem c3_formatValue_rules (q : JQ) (key : String) :
    (isPercentageKey key = true → q.abs ≤ ⟨21, 20⟩ → q.isZero = false →
      formatValue (.num (some q)) key = .str (toFixed1 (q * 100) ++ "%")) ∧
    (isPercentageKey key = true → ¬(q.abs ≤ ⟨21, 20⟩ ∧ q.isZero = false) →
      formatValue (.num (some q)) key = .str (toFixed1 q ++ "%")) ∧
    (isPercentageKey key = false → (100000000 : JQ) ≤ q.abs →
      formatValue (.num (some q)) key = .str (toFixed1 (q / 100000000) ++ "亿")) ∧
    (isPercentageKey key = false → ¬(100000000 : JQ) ≤ q.abs → (10000 : JQ) ≤ q.abs →
      formatValue (.num (some q)) key = .str (toFixed1 (q / 10000) ++ "万")) ∧
    formatValue (.num (some ⟨1, 8⟩)) "转化率" = .str "12.5%" ∧
    formatValue (.num (some ⟨25, 2⟩)) "转化率" = .str "12.5%" ∧
    formatValue (.num (some 150000000)) "销售额" = .str "1.5亿" ∧
    formatValue (.num (some 25000)) "销售额" = .str "2.5万" := by
  refine ⟨?_, ?_, ?_, ?_, by decide, by decide, by decide, by decide⟩
  · intro hp habs hz
    simp only [formatValue, jsToNumber, formatNum, hp, if_true]
    rw [if_pos ⟨habs, by simp [hz]⟩]
  · intro hp hneg
    simp only [formatValue, jsToNumber, formatNum, hp, if_true]
    rw [if_neg (by simpa [Bool.not_eq_true] using hneg)]
  · intro hp hge
    simp only [formatValue, jsToNumber, formatNum, hp, Bool.false_eq_true, if_false]
    rw [if_pos hge]
  · intro hp hlt hge
    simp only [formatValue, jsToNumber, formatNum, hp, Bool.false_eq_true, if_false]
    rw [if_neg hlt, if_pos hge]

/-- Witness for C3: the percentage rule evaluated at 0.5 under the key
`rate`. -/
theorem c3_witness : formatValue (.num (some ⟨1, 2⟩)) "rate" = .str "50.0%" := by
  have h := (c3_formatValue_rules ⟨1, 2⟩ "rate").1 (by decide) (by decide) (by decide)
  rw [h]; decide

/-- C4 counterexample: the claim says coercion of an unparsable string
(including the empty string) yields NaN; both `parseVal` and `parseMapVal`
instead yield 0 (`parseFloat(t) || 0`), which differs from the NaN value
`none`. -/
theorem c4_counterexample :
    parseVal (.str "") = some 0 ∧ parseMapVal (.str "") = some 0 ∧
      parseVal (.str "abc") = some 0 ∧ some (0 : JQ) ≠ none := by decide

/-- C4 amended: numbers pass through unchanged (NaN included); `%`-suffixed
strings are parsed by `parseFloat` (prefix parse, NaN possible); any other
string that fails to parse — the empty string included — coerces to 0, not
NaN, and non-string non-number inputs coerce to 0; no exception is
possible (the function is total).  Concretely `coerce("12.5%") = 12.5` and
`coerce(42) = 42`, but `coerce("") = 0`. -/
theorem c4_parseVal_amended (v : Option JQ) (s : String) :
    parseVal (.num v) = v ∧
    (strEndsWith (jsTrim s) "%" = true → parseVal (.str s) = parseFloat (jsTrim s)) ∧
    (strEndsWith (jsTrim s) "%" = false → parseFloat (jsTrim s) = none →
      parseVal (.str s) = some 0) ∧
    parseVal .null = some 0 ∧ parseVal .undefined = some 0 ∧
    (∀ w : JSVal, parseMapVal w = parseVal w) ∧
    parseVal (.str "12.5%") = some ⟨25, 2⟩ ∧
    parseVal (.str "") = some 0 ∧
    parseVal (.num (some 42)) = some 42 := by
  refine ⟨rfl, ?_, ?_, rfl, rfl, ?_, by decide, by decide, by decide⟩
  · intro hp
    simp only [parseVal, hp, if_true]
  · intro hp hf
    simp only [parseVal, hp, Bool.false_eq_true, if_false, hf, numOr]
  · intro w
    cases w <;> rfl

/-- Witness for C4's amended theorem: the `%` branch evaluated on `"8%"`. -/
theorem c4_witness : parseVal (.str "8%") = some 8 := by
  have h := (c4_parseVal_amended (some 7) "8%").2.1 (by decide)
  rw [h]; decide

/-- C9: region-name normalization maps a listed short alias to its
canonical name, returns an already-canonical name (in the table's value
set) as its trimmed self, returns any other non-empty input as its trimmed
self without failing, and concretely `normalize(陕西) = normalize(陕西省) =
陕西省`. -/
theorem c9_normalize_rules (s : String) (hs : s ≠ "") :
    (∀ c, PROVINCE_ALIAS.lookup (jsTrim s) = some c →
      normalizeProvinceName (.str s) = .str c) ∧
    (PROVINCE_ALIAS.lookup (jsTrim s) = none →
      (PROVINCE_ALIAS.map Prod.snd).contains (jsTrim s) = true →
      normalizeProvinceName (.str s) = .str (jsTrim s)) ∧
    (PROVINCE_ALIAS.lookup (jsTrim s) = none →
      (PROVINCE_ALIAS.map Prod.snd).contains (jsTrim s) = false →
      normalizeProvinceName (.str s) = .str (jsTrim s)) ∧
    normalizeProvinceName (.str "陕西") = .str "陕西省" ∧
    normalizeProvinceName (.str "陕西省") = .str "陕西省" := by
  have ht : truthy (.str s) = true := by simp [truthy, hs]
  refine ⟨?_, ?_, ?_, by decide, by decide⟩
  · intro c hc
    simp only [normalizeProvinceName, ht, Bool.true_eq_false, if_false, jsToString, hc]
  · intro hc hmem
    simp only [normalizeProvinceName, ht, Bool.true_eq_false, if_false, jsToString, hc, hmem,
      if_true]
  · intro hc hmem
    simp only [normalizeProvinceName, ht, Bool.true_eq_false, if_false, jsToString, hc, hmem,
      Bool.false_eq_true, if_false]

/-- Witness for C9: the alias rule evaluated on `河北`. -/
theorem c9_witness : normalizeProvinceName (.str "河北") = .str "河北省" :=
  (c9_normalize_rules "河北" (by decide)).1 "河北省" (by decide)

/-- C10: formatting the value 0 for a percentage-classified column stays in
the percentage branch (the fraction rule requires a non-zero value, so 0 is
not multiplied by 100) and yields `"0.0%"` rather than falling through to
the integer rule. -/
theorem c10_format_zero_percent (key : String) (hp : isPercentageKey key = true) :
    formatValue (.num (some 0)) key = .str "0.0%" := by
  simp only [formatValue, jsToNumber, formatNum, hp, if_true]
  rw [if_neg (by decide)]
  decide

/-- Witness for C10 at the key `转化率`. -/
theorem c10_witness : formatValue (.num (some 0)) "转化率" = .str "0.0%" :=
  c10_format_zero_percent "转化率" (by decide)

/-- The dimension-key resolution order asserted by claim C6, stated as a
definition for comparison with the source's `nameKeyOf`: explicit hint;
else a column literally named `name` or `label` when present in the first
record; else the first column that is not a metric candidate; else the
synthetic fallback `name`. -/
def nameKeyClaimed (dimension : String) (r0 : Record) : String :=
  if dimension ≠ "" then dimension
  else if (r0.map Prod.fst).contains "name" then "name"
  else if (r0.map Prod.fst).contains "label" then "label"
  else
    match (r0.map Prod.fst).find? (fun k => !isMetricVal (getField r0 k)) with
    | some k => k
    | none => "name"

/-- A first record whose columns are `城市` (text), `label` (text) and `v`
(numeric). -/
def sampleLabelRecord : Record := [("城市", .str "x"), ("label", .str "b"), ("v", .num (some 1))]

/-- C6 counterexample: on a record with a `label` column (and no `name`
column and no hint), the claimed order would pick `label`, but the source
never consults `label` and picks the first non-metric column `城市`. -/
theorem c6_counterexample :
    nameKeyOf "" sampleLabelRecord = "城市" ∧
      nameKeyClaimed "" sampleLabelRecord = "label" ∧
      "城市" ≠ "label" := by decide

/-- C6 amended: exactly one dimension key is chosen, resolved as: the
explicit hint when truthy; else the literal `name` column when its value in
the first record is truthy (`label` is never consulted, and mere presence
of `name` with a falsy value does not trigger this step); else the first
column not among the inferred metric keys, provided that column's name is
itself truthy — a first non-metric column literally named `""` is falsy
and falls through; else the synthetic fallback `name`. -/
theorem c6_nameKey_amended (dim : String) (r0 : Record) :
    (dim ≠ "" → nameKeyOf dim r0 = dim) ∧
    (dim = "" → truthy (getField r0 "name") = true → nameKeyOf dim r0 = "name") ∧
    (dim = "" → truthy (getField r0 "name") = false →
      ∀ k, (r0.map Prod.fst).find? (fun x => !(dataKeysOf r0).contains x) = some k →
        k ≠ "" → nameKeyOf dim r0 = k) ∧
    (dim = "" → truthy (getField r0 "name") = false →
      (r0.map Prod.fst).find? (fun x => !(dataKeysOf r0).contains x) = some "" →
      nameKeyOf dim r0 = "name") ∧
    (dim = "" → truthy (getField r0 "name") = false →
      (r0.map Prod.fst).find? (fun x => !(dataKeysOf r0).contains x) = none →
      nameKeyOf dim r0 = "name") := by
  refine ⟨?_, ?_, ?_, ?_, ?_⟩
  · intro hd
    unfold nameKeyOf
    rw [if_pos hd]
  · intro hd ht
    subst hd
    unfold nameKeyOf
    rw [if_neg (by simp), if_pos ht]
  · intro hd ht k hk hne
    subst hd
    unfold nameKeyOf
    rw [if_neg (by simp), if_neg (by simp [ht]), hk]
    exact if_pos hne
  · intro hd ht hk
    subst hd
    unfold nameKeyOf
    rw [if_neg (by simp), if_neg (by simp [ht]), hk]
    decide
  · intro hd ht hk
    subst hd
    unfold nameKeyOf
    rw [if_neg (by simp), if_neg (by simp [ht]), hk]

/-- Witness for C6's amended theorem: the hint branch on a concrete call. -/
theorem c6_witness : nameKeyOf "城市" sampleLabelRecord = "城市" :=
  (c6_nameKey_amended "城市" sampleLabelRecord).1 (by decide)

/-- One map record whose only metric is 0. -/
def sampleMapAllZero : List Record := [[("name", .str "北京"), ("v", .num (some 0))]]

/-- C8 counterexample: with a metric whose maximum is 0, the source's
`Math.max(...vals) || 100` makes the legend maximum 100, so the legend
bounds are not exactly the min/max of the coerced metric as claimed. -/
theorem c8_counterexample :
    (getOption .map sampleMapAllZero "" {} "").visualMap =
      some { vmin := 0, vmax := 100, range := some (0, 100) } ∧
    mathMax (mapValsOf sampleMapAllZero [("name", .str "北京"), ("v", .num (some 0))] {} "") =
      some 0 ∧
    (100 : JQ) ≠ 0 := by decide

/-- C8 amended: the map legend's selected range is always exactly
`[vmin, vmax]` of the freshly computed bounds (so no filter state survives
a metric switch), and those bounds equal the true minimum and maximum of
the coerced metric values whenever the true maximum and minimum are
non-zero non-NaN; a zero or NaN maximum is replaced by 100 and a zero or
NaN minimum by 0 (`|| 100` and `|| 0`). -/
theorem c8_visualMap_amended (r0 : Record) (rest : List Record) (title : String)
    (cfg : GeminiConfig) (ovr : String) :
    ∀ vm, (getOption .map (r0 :: rest) title cfg ovr).visualMap = some vm →
      vm.range = some (vm.vmin, vm.vmax) ∧
      (∀ M, mathMax (mapValsOf (r0 :: rest) r0 cfg ovr) = some M → M.isZero = false →
        vm.vmax = M) ∧
      (∀ m, mathMin (mapValsOf (r0 :: rest) r0 cfg ovr) = some m → m.isZero = false →
        vm.vmin = m) := by
  intro vm h
  simp only [getOption, mapOption] at h
  obtain rfl := Option.some.inj h
  refine ⟨rfl, ?_, ?_⟩
  · intro M hM hz
    simp only [hM, numOr, hz, Bool.false_eq_true, if_false, Option.getD_some]
  · intro m hm hz
    simp only [hm, numOr, hz, Bool.false_eq_true, if_false, Option.getD_some]

/-- Two map records with metric values 5 and 2. -/
def sampleMapPlain : List Record :=
  [[("name", .str "北京"), ("v", .num (some 5))], [("name", .str "上海"), ("v", .num (some 2))]]

/-- Witness for C8's amended theorem: on metric values `[5, 2]` the legend
bounds are exactly 2 and 5 and the range is reset to them. -/
theorem c8_witness :
    ((getOption .map sampleMapPlain "" {} "").visualMap.getD { vmin := 0, vmax := 0 }).range =
      some (2, 5) := by
  have h := c8_visualMap_amended [("name", .str "北京"), ("v", .num (some 5))]
    [[("name", .str "上海"), ("v", .num (some 2))]] "" {} ""
    ((getOption .map sampleMapPlain "" {} "").visualMap.getD { vmin := 0, vmax := 0 })
    (by decide)
  have h2 := (h.2.1 5 (by decide) (by decide))
  have h3 := (h.2.2 2 (by decide) (by decide))
  rw [h.1, h2, h3]

/-- Number of data points carried by a series. -/
def seriesPointCount : SeriesData → ℕ
  | .scalars l => l.length
  | .xy l => l.length
  | .namedVals l => l.length
  | .triples l => l.length
  | .quads l => l.length
  | .radarRows l => l.length

/-- Inserting a record into the insertion-ordered groups raises the total
record count by exactly one. -/
theorem groupInsert_count (gs : List (String × List Record)) (g : String) (d : Record) :
    ((groupInsert gs g d).map (fun p => p.2.length)).sum =
      ((gs.map (fun p => p.2.length)).sum) + 1 := by
  induction gs with
  | nil => simp [groupInsert]
  | cons p rest ih =>
    obtain ⟨k, ds⟩ := p
    by_cases hk : k = g
    · simp only [groupInsert, hk, if_true, List.map_cons, List.sum_cons, List.length_append,
        List.length_cons, List.length_nil]
      omega
    · simp only [groupInsert, hk, if_false, List.map_cons, List.sum_cons, ih]
      omega

/-- Folding `groupInsert` over records preserves the total record count. -/
theorem foldl_groupInsert_count (f : Record → String) (l : List Record)
    (gs : List (String × List Record)) :
    ((l.foldl (fun acc d => groupInsert acc (f d) d) gs).map (fun p => p.2.length)).sum =
      ((gs.map (fun p => p.2.length)).sum) + l.length := by
  induction l generalizing gs with
  | nil => simp
  | cons d rest ih =>
    simp only [List.foldl_cons, List.length_cons, ih, groupInsert_count]
    omega

/-- The bubble groups cover the whole record list: total count equals the
number of records (nothing is dropped). -/
theorem bubbleGroups_count (cfg : GeminiConfig) (data : List Record) (r0 : Record) :
    ((bubbleGroups cfg data r0).map (fun p => p.2.length)).sum = data.length := by
  unfold bubbleGroups
  cases bubbleGroupKey cfg r0 with
  | none => simp
  | some gk =>
    simpa using foldl_groupInsert_count
      (fun d => jsToString (jsOr (getField d gk) (.str "未分类"))) data []

/-- An `indexOf` result other than `-1` is a genuine (nonnegative) index. -/
theorem jsIndexOf_nonneg (xs : List JSVal) (v : JSVal) (h : jsIndexOf xs v ≠ -1) :
    0 ≤ jsIndexOf xs v := by
  unfold jsIndexOf at h ⊢
  cases hf : xs.findIdx? (fun x => x == v) with
  | none => rw [hf] at h; exact absurd rfl h
  | some i => exact Int.ofNat_nonneg i

/-- Two bubble records whose grouping column `g` is `"G1"` for the first
and the falsy `""` for the second. -/
def sampleBubbleGrouped : List Record :=
  [[("name", .str "a"), ("x", .num (some 1)), ("y", .num (some 2)), ("s", .num (some 3)),
    ("g", .str "G1")],
   [("name", .str "b"), ("x", .num (some 4)), ("y", .num (some 5)), ("s", .num (some 6)),
    ("g", .str "")]]

/-- C7 counterexample: in the bubble strategy a record whose grouping value
(the empty string) is not found in the distinct category list
`["G1", "未分类"]` is not excluded — it is defaulted into the substitute
`未分类` bucket, its point kept in that series. -/
theorem c7_counterexample :
    (getOption .bubble sampleBubbleGrouped "" {} "").series =
      some [{ seriesName := some "G1", seriesType := "scatter", symbolSizeMaxVal := some 6,
              sdata := .quads [(.num (some 1), .num (some 2), .num (some 3), .str "a")] },
            { seriesName := some "未分类", seriesType := "scatter", symbolSizeMaxVal := some 6,
              sdata := .quads [(.num (some 4), .num (some 5), .num (some 6), .str "b")] }] ∧
    ((getOption .bubble sampleBubbleGrouped "" {} "").legend.map LegendSpec.legendData) =
      some (some ["G1", "未分类"]) ∧
    (JSVal.str "" ≠ .str "G1" ∧ JSVal.str "" ≠ .str "未分类") := by decide

/-- C7 amended: the matrix/heatmap strategy keeps only records whose two
category values are found (every emitted cell has nonnegative category
indices, the `-1` sentinel of unmatched lookups never survives the
filter); the bubble strategy excludes nothing — the total number of plotted
points equals the number of records, records with a falsy grouping value
being defaulted into the `未分类` bucket. -/
theorem c7_exclusion_amended (r0 : Record) (rest : List Record) (title : String)
    (cfg : GeminiConfig) (ovr : String) :
    (∀ ser, (getOption .heatmap (r0 :: rest) title cfg ovr).series = some ser →
      ∀ s ∈ ser, ∀ ts, s.sdata = .triples ts →
        ∀ t ∈ ts, 0 ≤ t.1 ∧ 0 ≤ t.2.1) ∧
    (∀ ser, (getOption .bubble (r0 :: rest) title cfg ovr).series = some ser →
      (ser.map (fun s => seriesPointCount s.sdata)).sum = (r0 :: rest).length) := by
  constructor
  · intro ser h s hs ts hts t ht
    simp only [getOption, heatmapOption] at h
    obtain rfl := Option.some.inj h
    rw [List.mem_singleton] at hs
    subst hs
    simp only at hts
    obtain rfl := SeriesData.triples.inj hts
    rw [List.mem_filter] at ht
    obtain ⟨hmem, hpred⟩ := ht
    rw [Bool.and_eq_true, bne_iff_ne, bne_iff_ne] at hpred
    rw [List.mem_map] at hmem
    obtain ⟨d, _, rfl⟩ := hmem
    exact ⟨jsIndexOf_nonneg _ _ hpred.1, jsIndexOf_nonneg _ _ hpred.2⟩
  · intro ser h
    simp only [getOption, bubbleOption] at h
    obtain rfl := Option.some.inj h
    simp only [List.map_map]
    have hcomp :
        ((fun s => seriesPointCount s.sdata) ∘ fun g : String × List Record =>
          ({ seriesName := some g.1, seriesType := "scatter",
             symbolSizeMaxVal := some (bubbleMaxVal (r0 :: rest)
               (strOr cfg.sizeDataKey (strOr ((dataKeysOf r0).getD 2 "")
                 (strOr ((dataKeysOf r0).headD "") "value")))),
             sdata := .quads (g.2.map (fun d =>
               (getField d (strOr cfg.xDataKey (strOr ((dataKeysOf r0).headD "") "value")),
                getField d (strOr cfg.yDataKey (strOr ((dataKeysOf r0).getD 1 "")
                  (strOr ((dataKeysOf r0).headD "") "value"))),
                getField d (strOr cfg.sizeDataKey (strOr ((dataKeysOf r0).getD 2 "")
                  (strOr ((dataKeysOf r0).headD "") "value"))),
                jsOr (jsOr (getField d (nameKeyOf cfg.dimension r0)) (getField d "name"))
                  (.str g.1)))) } : SeriesSpec)) =
          fun g : String × List Record => g.2.length := by
      funext g
      simp [seriesPointCount]
    rw [hcomp, bubbleGroups_count]

/-- Witness for C7's amended theorem: on the two grouped bubble records the
series point counts sum to 2 — the falsy-grouped record is retained. -/
theorem c7_witness :
    ((((getOption .bubble sampleBubbleGrouped "" {} "").series.getD []).map
      (fun s => seriesPointCount s.sdata)).sum) = 2 := by
  have h := (c7_exclusion_amended
    [("name", .str "a"), ("x", .num (some 1)), ("y", .num (some 2)), ("s", .num (some 3)),
     ("g", .str "G1")]
    [[("name", .str "b"), ("x", .num (some 4)), ("y", .num (some 5)), ("s", .num (some 6)),
      ("g", .str "")]] "" {} "").2
    ((getOption .bubble sampleBubbleGrouped "" {} "").series.getD []) (by decide)
  exact h

/-- Real value of a numeral `JQ`. -/
theorem toReal_ofNat (n : ℕ) : (OfNat.ofNat n : JQ).toReal = (n : ℝ) := by
  show (JQ.mk (Int.ofNat n) 1).toReal = (n : ℝ)
  unfold JQ.toReal
  norm_num

/-- `getSize` on a number is the clamped square-root scale. -/
theorem getSize_formula (maxVal : JQ) (q : JQ) :
    getSize maxVal (.num (some q)) =
      some (Max.max 10 (Min.min 80
        (Real.sqrt |q.toReal| / Real.sqrt maxVal.toReal * 60))) := rfl

/-- The concrete bubble sizes for size values 1, 4, 9 (maximum 9). -/
theorem getSize_nine_vals :
    getSize 9 (.num (some 1)) = some 20 ∧ getSize 9 (.num (some 4)) = some 40 ∧
      getSize 9 (.num (some 9)) = some 60 := by
  have s9 : Real.sqrt ((9 : ℕ) : ℝ) = 3 := by
    rw [show ((9 : ℕ) : ℝ) = 3 ^ 2 by norm_num]
    exact Real.sqrt_sq (by norm_num)
  have s4 : Real.sqrt ((4 : ℕ) : ℝ) = 2 := by
    rw [show ((4 : ℕ) : ℝ) = 2 ^ 2 by norm_num]
    exact Real.sqrt_sq (by norm_num)
  refine ⟨?_, ?_, ?_⟩
  · rw [getSize_formula, toReal_ofNat, toReal_ofNat,
      abs_of_nonneg (by norm_num : (0 : ℝ) ≤ ((1 : ℕ) : ℝ)), s9]
    norm_num [ min_def, max_def]
  · rw [getSize_formula, toReal_ofNat, toReal_ofNat,
      abs_of_nonneg (by norm_num : (0 : ℝ) ≤ ((4 : ℕ) : ℝ)), s9, s4]
    norm_num [ min_def, max_def]
  · rw [getSize_formula, toReal_ofNat,
      abs_of_nonneg (by norm_num : (0 : ℝ) ≤ ((9 : ℕ) : ℝ)), s9]
    norm_num [ min_def, max_def]

/-- Three bubble records with size values 1, 4, 9 and no grouping column. -/
def sampleBubbleSizes : List Record :=
  [[("name", .str "a"), ("x", .num (some 1)), ("y", .num (some 1)), ("s", .num (some 1))],
   [("name", .str "b"), ("x", .num (some 2)), ("y", .num (some 2)), ("s", .num (some 4))],
   [("name", .str "c"), ("x", .num (some 3)), ("y", .num (some 3)), ("s", .num (some 9))]]

/-- C5 counterexample: for size values `[1, 4, 9]` the captured maximum is
9 and the minimum-size record maps to radius 20 — not the configured
minimum radius 10 (the clamp floor) — while the maximum-size record maps
to 60, the scale factor, not the clamp ceiling 80. -/
theorem c5_counterexample :
    ((getOption .bubble sampleBubbleSizes "" {} "").series.map
      (fun l => l.map SeriesSpec.symbolSizeMaxVal)) = some [some 9] ∧
    getSize 9 (.num (some 1)) = some 20 ∧ (20 : ℝ) ≠ 10 ∧
    getSize 9 (.num (some 9)) = some 60 ∧ (60 : ℝ) ≠ 80 :=
  ⟨by decide, getSize_nine_vals.1, by norm_num, getSize_nine_vals.2.2, by norm_num⟩

/-- C5 amended: the symbol size is `sqrt(|v|)/sqrt(max|v|) * 60`, clamped
below at 10 (the 80 ceiling is inert once `|v| ≤ max`), so every size lies
in `[10, 60]`; the maximum-size record maps to the scale factor 60, and
for size values `[1, 4, 9]` the radii are 20, 40, 60 — the minimum-size
record does not reach the configured minimum radius. -/
theorem c5_bubble_size_amended (maxVal q : JQ) (hpos : 0 < maxVal.toReal)
    (hle : |q.toReal| ≤ maxVal.toReal) :
    getSize maxVal (.num (some q)) =
      some (Max.max 10 (Real.sqrt |q.toReal| / Real.sqrt maxVal.toReal * 60)) ∧
    (∀ r : ℝ, getSize maxVal (.num (some q)) = some r → 10 ≤ r ∧ r ≤ 60) ∧
    (|q.toReal| = maxVal.toReal → getSize maxVal (.num (some q)) = some 60) ∧
    getSize 9 (.num (some 1)) = some 20 ∧
    getSize 9 (.num (some 4)) = some 40 ∧
    getSize 9 (.num (some 9)) = some 60 := by
  have hspos : 0 < Real.sqrt maxVal.toReal := Real.sqrt_pos.mpr hpos
  have hratio : Real.sqrt |q.toReal| / Real.sqrt maxVal.toReal ≤ 1 :=
    (div_le_one hspos).mpr (Real.sqrt_le_sqrt hle)
  have ht60 : Real.sqrt |q.toReal| / Real.sqrt maxVal.toReal * 60 ≤ 60 := by
    calc Real.sqrt |q.toReal| / Real.sqrt maxVal.toReal * 60 ≤ 1 * 60 :=
          mul_le_mul_of_nonneg_right hratio (by norm_num)
      _ = 60 := one_mul 60
  have hmin : Min.min (80 : ℝ) (Real.sqrt |q.toReal| / Real.sqrt maxVal.toReal * 60) =
      Real.sqrt |q.toReal| / Real.sqrt maxVal.toReal * 60 :=
    min_eq_right (le_trans ht60 (by norm_num))
  refine ⟨?_, ?_, ?_, getSize_nine_vals.1, getSize_nine_vals.2.1, getSize_nine_vals.2.2⟩
  · rw [getSize_formula, hmin]
  · intro r hr
    rw [getSize_formula, hmin] at hr
    obtain rfl := Option.some.inj hr
    exact ⟨le_max_left _ _, max_le (by norm_num) ht60⟩
  · intro heq
    rw [getSize_formula, heq, div_self (ne_of_gt hspos), one_mul,
      show Min.min (80 : ℝ) 60 = 60 from min_eq_right (by norm_num),
      show Max.max (10 : ℝ) 60 = 60 from max_eq_right (by norm_num)]

/-- Witness for C5's amended theorem: size 4 against maximum 9 yields
radius 40. -/
theorem c5_witness : getSize 9 (.num (some 4)) = some 40 := by
  have h := c5_bubble_size_amended 9 4
    (by rw [toReal_ofNat]; norm_num)
    (by rw [toReal_ofNat, toReal_ofNat, abs_of_nonneg (by norm_num : (0 : ℝ) ≤ ((4 : ℕ) : ℝ))]
        norm_num)
  exact h.2.2.2.2.1

/-- Pointwise property transfer onto `l.zip (l.map f)`. -/
theorem zip_map_self_mem {α β : Type} (f : α → β) (l : List α) (p : α × β → Prop)
    (h : ∀ a ∈ l, p (a, f a)) : ∀ x ∈ l.zip (l.map f), p x := by
  induction l with
  | nil => intro x hx; simp at hx
  | cons a t ih =>
    intro x hx
    rw [List.map_cons, List.zip_cons_cons] at hx
    rcases List.mem_cons.mp hx with rfl | hx2
    · exact h a (List.mem_cons_self a t)
    · exact ih (fun b hb => h b (List.mem_cons_of_mem a hb)) x hx2

/-- The bar/line/area/mix branch: dual-axis decision, axis types, and the
per-key geometry and axis binding of every series. -/
theorem barLike_props (kind : ChartKind) (data : List Record) (r0 : Record)
    (title : String) (cfg : GeminiConfig) :
    ∃ ser,
      (barLikeOption kind data r0 title cfg).series = some ser ∧
      ser.length = (dataKeysOf r0).length ∧
      (useDualOf r0 = true →
        ∃ p s, (barLikeOption kind data r0 title cfg).yAxis = some (.dual p s) ∧
          p.axisType = "value" ∧ s.axisType = "value") ∧
      (useDualOf r0 = false →
        ∃ p, (barLikeOption kind data r0 title cfg).yAxis = some (.single p) ∧
          p.axisType = "value") ∧
      ∀ ks ∈ (dataKeysOf r0).zip ser,
        (isPercentageKey ks.1 = true →
          ks.2.seriesType = "line" ∧ ks.2.yAxisIndex = if useDualOf r0 then 1 else 0) ∧
        (isPercentageKey ks.1 = false →
          ks.2.yAxisIndex = 0 ∧
          ((kind = .bar ∨ kind = .mix) → ks.2.seriesType = "bar") ∧
          ((kind = .line ∨ kind = .area) → ks.2.seriesType = "line")) := by
  refine ⟨_, rfl, by simp [barLikeOption], ?_, ?_, ?_⟩
  · intro hdual
    simp only [barLikeOption, hdual, if_true]
    exact ⟨_, _, rfl, rfl, rfl⟩
  · intro hdual
    simp only [barLikeOption, hdual, Bool.false_eq_true, if_false]
    exact ⟨_, rfl, rfl⟩
  · simp only [barLikeOption]
    refine zip_map_self_mem _ _ _ ?_
    intro a _
    by_cases hp : isPercentageKey a = true
    · refine ⟨fun _ => ⟨by simp [hp], ?_⟩, fun hfalse => by simp [hp] at hfalse⟩
      simp only [hp, Bool.and_true]
    · have hp2 : isPercentageKey a = false := by
        cases hb : isPercentageKey a with
        | true => exact absurd hb hp
        | false => rfl
      refine ⟨fun htrue => by simp [hp2] at htrue, fun _ => ⟨by simp [hp2], ?_, ?_⟩⟩
      · intro hk
        rcases hk with rfl | rfl <;> simp [hp2]
      · intro hk
        rcases hk with rfl | rfl <;> simp [hp2]

/-- C2: for the bar/line/area/mix strategies, when the metric keys contain
both a percentage-classified and a plain column the specification has two
numeric axes, every percentage series is bound to the secondary axis
(`yAxisIndex` 1) with line geometry regardless of the requested kind;
otherwise a single numeric axis is used with every series on axis 0, and a
non-percentage series always follows the requested geometry (bar for
bar/mix, line for line/area) on axis 0. -/
theorem c2_dual_axis_binding (kind : ChartKind)
    (hkind : kind = .bar ∨ kind = .line ∨ kind = .area ∨ kind = .mix)
    (r0 : Record) (rest : List Record) (title : String) (cfg : GeminiConfig) (ovr : String) :
    ∃ ser,
      (getOption kind (r0 :: rest) title cfg ovr).series = some ser ∧
      ser.length = (dataKeysOf r0).length ∧
      (useDualOf r0 = true →
        ∃ p s, (getOption kind (r0 :: rest) title cfg ovr).yAxis = some (.dual p s) ∧
          p.axisType = "value" ∧ s.axisType = "value") ∧
      (useDualOf r0 = false →
        ∃ p, (getOption kind (r0 :: rest) title cfg ovr).yAxis = some (.single p) ∧
          p.axisType = "value") ∧
      ∀ ks ∈ (dataKeysOf r0).zip ser,
        (isPercentageKey ks.1 = true →
          ks.2.seriesType = "line" ∧ ks.2.yAxisIndex = if useDualOf r0 then 1 else 0) ∧
        (isPercentageKey ks.1 = false →
          ks.2.yAxisIndex = 0 ∧
          ((kind = .bar ∨ kind = .mix) → ks.2.seriesType = "bar") ∧
          ((kind = .line ∨ kind = .area) → ks.2.seriesType = "line")) := by
  rcases hkind with rfl | rfl | rfl | rfl <;>
    exact barLike_props _ (r0 :: rest) r0 title cfg

/-- A record with a plain metric `销售额` and a percentage metric `增长率`. -/
def sampleDualRecord : Record :=
  [("名称", .str "一月"), ("销售额", .num (some 100)), ("增长率", .str "12%")]

/-- Witness for C2: on `{销售额: 100, 增长率: "12%"}` the bar strategy
emits one series per metric key. -/
theorem c2_witness :
    ((getOption .bar [sampleDualRecord] "" {} "").series.map List.length) = some 2 := by
  obtain ⟨ser, hser, hlen, _⟩ :=
    c2_dual_axis_binding .bar (Or.inl rfl) sampleDualRecord [] "" {} ""
  rw [hser]
  show some ser.length = some 2
  rw [hlen]
  decide

/-- C1: for every non-empty record list and every chart kind the builder is
total (the Lean model is a total function, mirroring that the source
branch never throws) and the resulting specification has a non-null series
list and a non-null tooltip formatter. -/
theorem c1_series_tooltip_present (kind : ChartKind) (data : List Record)
    (title : String) (cfg : GeminiConfig) (ovr : String) (hne : data ≠ []) :
    ∃ ser tip, (getOption kind data title cfg ovr).series = some ser ∧
      (getOption kind data title cfg ovr).tooltip = some tip ∧ tip.formatter ≠ none := by
  cases data with
  | nil => exact absurd rfl hne
  | cons r0 rest =>
    cases kind <;> exact ⟨_, _, rfl, rfl, fun hcon => Option.noConfusion hcon⟩

/-- Witness for C1: the pie strategy on one record has a series list and a
tooltip. -/
theorem c1_witness :
    (getOption .pie [[("name", .str "a"), ("v", .num (some 1))]] "" {} "").series.isSome = true ∧
    (getOption .pie [[("name", .str "a"), ("v", .num (some 1))]] "" {} "").tooltip.isSome = true := by
  obtain ⟨ser, tip, h1, h2, _⟩ :=
    c1_series_tooltip_present .pie [[("name", .str "a"), ("v", .num (some 1))]] "" {} ""
      (by decide)
  rw [h1, h2]
  exact ⟨rfl, rfl⟩

end Panel
